import Mathlib

/-!
Verification of the query-builder core of the repository (package `rel`,
`vendor/github.com/go-rel/rel/query.go`).

The `rel` namespace below is a shallow embedding of the Go source:

* Go value types become Lean structures / inductives with the same names.
* Methods with a pointer receiver (`Build(query *Query)`) become functions
  returning the updated `Query`; a guarded assignment `if c { x.f = v }`
  becomes `f := if c then v else x.f`.
* Go slices become `List`s (a `nil` slice and an empty slice coincide in
  this model), `int` becomes `Int`, `bool` becomes `Bool`.

The repository vendors only `query.go`; the sibling files of the `rel`
package (`filter_query.go`, `sort_query.go`, `group_query.go`,
`join_query.go`, `select_query.go`, `sql_query.go`, `reload.go`,
`cascade.go`) are not part of the repository snapshot.  The definitions for
those types are therefore modelled from the specification document and are
marked `Modelled from the spec:` in their doc comments.  Everything else is
translated directly from `query.go`.
-/

namespace rel

/-- Modelled from the spec: `FilterQuery` (filter tree node) is a tagged
variant over: "none" (empty/no-op, identity under AND/OR), a single
field-operator-value predicate, a raw-text fragment with positional
arguments, and an n-ary combinator ("and" list, "or" list) of nested
filter trees.  (`filter_query.go` is missing from the snapshot.) -/
inductive FilterQuery where
  | none : FilterQuery
  | pred (field op value : String) : FilterQuery
  | fragment (expr : String) (args : List String) : FilterQuery
  | and (inner : List FilterQuery) : FilterQuery
  | or (inner : List FilterQuery) : FilterQuery
deriving Repr

/-- Modelled from the spec: the `None()` predicate testing for the
identity element of the filter tree. -/
def FilterQuery.None : FilterQuery → Bool
  | .none => true
  | _ => false

/-- Modelled from the spec: the free `And(filters...)` constructor.  The
"none" variant is the identity element, so `And()` of no filters is the
identity and `And` of a single filter is that filter itself. -/
def And (inner : List FilterQuery) : FilterQuery :=
  match inner with
  | [] => FilterQuery.none
  | [f] => f
  | l => FilterQuery.and l

/-- Modelled from the spec: the free `Or(filters...)` constructor,
dual to `And`. -/
def Or (inner : List FilterQuery) : FilterQuery :=
  match inner with
  | [] => FilterQuery.none
  | [f] => f
  | l => FilterQuery.or l

/-- Modelled from the spec: `FilterFragment(rawExpr, args...)`, the
raw-fragment escape of the filter tree. -/
def FilterFragment (expr : String) (args : List String) : FilterQuery :=
  FilterQuery.fragment expr args

/-- Modelled from the spec: the method `fq.And(filters...)`.  ANDing the
identity with filters short-circuits; ANDing when the left operand is
already an "and" combinator flattens (the new filters extend the existing
list rather than nesting); otherwise a fresh "and" list is formed. -/
def FilterQuery.And (fq : FilterQuery) (filters : List FilterQuery) : FilterQuery :=
  if fq.None then rel.And filters
  else
    match fq with
    | .and inner => .and (inner ++ filters)
    | _ => rel.And (fq :: filters)

/-- Modelled from the spec: the method `fq.Or(filters...)`, dual to the
`And` method: identity short-circuit, flattening of an existing "or"
combinator, fresh "or" list otherwise. -/
def FilterQuery.Or (fq : FilterQuery) (filters : List FilterQuery) : FilterQuery :=
  if fq.None then rel.Or filters
  else
    match fq with
    | .or inner => .or (inner ++ filters)
    | _ => rel.Or (fq :: filters)

mutual

/-- Modelled from the spec: serialization of the filter tree.  Field
predicates render as `field op value`; raw fragments render as their
literal text; AND-lists join with `AND`; OR-lists join with `OR` and are
parenthesized when nested inside a different combinator kind. -/
def FilterQuery.String : FilterQuery → String
  | .none => ""
  | .pred f o v => f ++ " " ++ o ++ " " ++ v
  | .fragment e _ => e
  | .and inner => FilterQuery.joinAnd inner
  | .or inner => FilterQuery.joinOr inner

/-- Modelled from the spec: a direct child of an AND-list; an OR-list
child is parenthesized to preserve precedence. -/
def FilterQuery.andChild : FilterQuery → String
  | .none => ""
  | .pred f o v => f ++ " " ++ o ++ " " ++ v
  | .fragment e _ => e
  | .and inner => FilterQuery.joinAnd inner
  | .or inner => "(" ++ FilterQuery.joinOr inner ++ ")"

/-- Modelled from the spec: joins the children of an AND-list with `AND`. -/
def FilterQuery.joinAnd : List FilterQuery → String
  | [] => ""
  | [f] => FilterQuery.andChild f
  | f :: rest => FilterQuery.andChild f ++ " AND " ++ FilterQuery.joinAnd rest

/-- Modelled from the spec: joins the children of an OR-list with `OR`. -/
def FilterQuery.joinOr : List FilterQuery → String
  | [] => ""
  | [f] => FilterQuery.String f
  | f :: rest => FilterQuery.String f ++ " OR " ++ FilterQuery.joinOr rest

end

/-- Modelled from the spec: `SortQuery` is a field name plus a
sign-encoded direction (`sort_query.go` is missing from the snapshot). -/
structure SortQuery where
  Field : String := ""
  «Sort» : Int := 0
deriving Repr

/-- Modelled from the spec: ascending-direction test on the sign encoding. -/
def SortQuery.Asc (s : SortQuery) : Bool := decide (0 ≤ s.«Sort»)

/-- Modelled from the spec: constructor of an ascending sort directive. -/
def NewSortAsc (field : String) : SortQuery := { Field := field, «Sort» := 1 }

/-- Modelled from the spec: constructor of a descending sort directive. -/
def NewSortDesc (field : String) : SortQuery := { Field := field, «Sort» := -1 }

/-- Modelled from the spec: `GroupQuery` is a field-name sequence plus a
having-filter tree (`group_query.go` is missing from the snapshot). -/
structure GroupQuery where
  Fields : List String := []
  Filter : FilterQuery := .none
deriving Repr

/-- Modelled from the spec: `JoinQuery` holds the join mode keyword, the
joined table, the two join-condition column names, and an optional filter
tree with raw arguments for fragment-based joins (`join_query.go` is
missing from the snapshot). -/
structure JoinQuery where
  Mode : String := ""
  Table : String := ""
  From : String := ""
  To : String := ""
  Filter : FilterQuery := .none
  Arguments : List String := []
deriving Repr

/-- Modelled from the spec: constructor of a column-based join directive
with a custom join mode. -/
def NewJoinWith (mode table fromCol toCol : String) (filter : List FilterQuery) : JoinQuery :=
  { Mode := mode, Table := table, From := fromCol, To := toCol, Filter := And filter }

/-- Modelled from the spec: constructor of a raw-fragment join directive. -/
def NewJoinFragment (expr : String) (args : List String) : JoinQuery :=
  { Mode := expr, Arguments := args }

/-- Modelled from the spec: the select spec is a field-name sequence plus
a distinct flag (`select_query.go` is missing from the snapshot). -/
structure SelectQuery where
  Fields : List String := []
  OnlyDistinct : Bool := false
deriving Repr

/-- Modelled from the spec: constructor of a select spec from its fields. -/
def NewSelect (fields : List String) : SelectQuery := { Fields := fields }

/-- Modelled from the spec: a raw SQL query fragment carrying the raw
statement text and its positional values (`sql_query.go` is missing from
the snapshot). -/
structure SQLQuery where
  Statement : String := ""
  Values : List String := []
deriving Repr

/-- Modelled from the spec: the raw SQL query's own string rendering (the
spec does not constrain its format; rendered as the raw statement). -/
def SQLQuery.String (sq : SQLQuery) : String := sq.Statement

/-- Offset Query (`type Offset int`). -/
abbrev Offset := Int

/-- Limit options (`type Limit int`). -/
abbrev Limit := Int

/-- Lock query (`type Lock string`). -/
abbrev Lock := String

/-- Unscoped query (`type Unscoped bool`). -/
abbrev Unscoped := Bool

/-- Preload query (`type Preload string`). -/
abbrev Preload := String

/-- Modelled from the spec: the reload flag directive (`reload.go` is
missing from the snapshot). -/
abbrev Reload := Bool

/-- Modelled from the spec: the cascade flag directive (`cascade.go` is
missing from the snapshot). -/
abbrev Cascade := Bool

/-- Query defines information about query generated by query builder
(struct `Query` of `query.go`). -/
structure Query where
  empty : Bool := false
  Table : String := ""
  SelectQuery : SelectQuery := {}
  JoinQuery : List JoinQuery := []
  WhereQuery : FilterQuery := .none
  GroupQuery : GroupQuery := {}
  SortQuery : List SortQuery := []
  OffsetQuery : Offset := 0
  LimitQuery : Limit := 0
  LockQuery : Lock := ""
  SQLQuery : SQLQuery := {}
  UnscopedQuery : Unscoped := false
  ReloadQuery : Reload := false
  CascadeQuery : Cascade := false
  PreloadQuery : List String := []
  UsePrimaryDb : Bool := false
deriving Repr

/-- `newQuery()`: the fresh aggregate, all zero values except cascade. -/
def newQuery : Query := { CascadeQuery := true }

/-- `Query.Build(query *Query)`: folding a `Query` fragment into an
aggregate.  A fresh/empty aggregate is replaced wholesale; otherwise the
fields are merged manually, one by one, exactly as in the Go source
(a guarded assignment `if cond { query.f = v }` becomes
`f := if cond then v else query.f`). -/
def Query.Build (q : Query) (query : Query) : Query :=
  if query.empty then
    q
  else
    { query with
      Table := if q.Table ≠ "" then q.Table else query.Table
      SelectQuery := if q.SelectQuery.Fields ≠ [] then q.SelectQuery else query.SelectQuery
      JoinQuery := query.JoinQuery ++ q.JoinQuery
      WhereQuery := if !q.WhereQuery.None then query.WhereQuery.And [q.WhereQuery] else query.WhereQuery
      GroupQuery := if q.GroupQuery.Fields ≠ [] then q.GroupQuery else query.GroupQuery
      SortQuery := query.SortQuery ++ q.SortQuery
      OffsetQuery := if q.OffsetQuery ≠ 0 then q.OffsetQuery else query.OffsetQuery
      LimitQuery := if q.LimitQuery ≠ 0 then q.LimitQuery else query.LimitQuery
      LockQuery := if q.LockQuery ≠ "" then q.LockQuery else query.LockQuery
      ReloadQuery := query.ReloadQuery || q.ReloadQuery
      CascadeQuery := query.CascadeQuery || q.CascadeQuery
      UsePrimaryDb := query.UsePrimaryDb || q.UsePrimaryDb }

/-- Modelled from the spec: a `JoinQuery` fragment appends itself to the
aggregate's join sequence (its `Build` lives in the missing
`join_query.go`; the spec makes join sequences append-only). -/
def JoinQuery.Build (jq : JoinQuery) (query : Query) : Query :=
  { query with JoinQuery := query.JoinQuery ++ [jq] }

/-- Modelled from the spec: a `FilterQuery` fragment ANDs itself onto the
aggregate's where-clause (its `Build` lives in the missing
`filter_query.go`; the spec makes filter trees AND-combine). -/
def FilterQuery.Build (fq : FilterQuery) (query : Query) : Query :=
  { query with WhereQuery := query.WhereQuery.And [fq] }

/-- Modelled from the spec: a `GroupQuery` fragment replaces the
aggregate's group spec (its `Build` lives in the missing
`group_query.go`; the spec makes group specs whole-value replacements). -/
def GroupQuery.Build (gq : GroupQuery) (query : Query) : Query :=
  { query with GroupQuery := gq }

/-- Modelled from the spec: a `SortQuery` fragment appends itself to the
aggregate's sort sequence (its `Build` lives in the missing
`sort_query.go`; the spec makes sort sequences append-only). -/
def SortQuery.Build (sq : SortQuery) (query : Query) : Query :=
  { query with SortQuery := query.SortQuery ++ [sq] }

/-- `Offset.Build(query *Query)`: sets the aggregate's offset. -/
def Offset.Build (o : Offset) (query : Query) : Query :=
  { query with OffsetQuery := o }

/-- `Limit.Build(query *Query)`: sets the aggregate's limit. -/
def Limit.Build (l : Limit) (query : Query) : Query :=
  { query with LimitQuery := l }

/-- `Lock.Build(query *Query)`: sets the aggregate's lock mode. -/
def Lock.Build (l : Lock) (query : Query) : Query :=
  { query with LockQuery := l }

/-- `Unscoped.Build(query *Query)`: sets the aggregate's unscoped flag. -/
def Unscoped.Build (u : Unscoped) (query : Query) : Query :=
  { query with UnscopedQuery := u }

/-- Modelled from the spec: a `Reload` fragment sets the aggregate's
reload flag (its `Build` lives in the missing `reload.go`). -/
def Reload.Build (r : Reload) (query : Query) : Query :=
  { query with ReloadQuery := r }

/-- Modelled from the spec: a `SQLQuery` fragment installs itself as the
aggregate's raw SQL query (its `Build` lives in the missing
`sql_query.go`). -/
def SQLQuery.Build (sq : SQLQuery) (query : Query) : Query :=
  { query with SQLQuery := sq }

/-- `Preload.Build(query *Query)`: appends the preload field name. -/
def Preload.Build (p : Preload) (query : Query) : Query :=
  { query with PreloadQuery := query.PreloadQuery ++ [p] }

/-- Modelled from the spec: a `Cascade` fragment sets the aggregate's
cascade flag (its `Build` lives in the missing `cascade.go`). -/
def Cascade.Build (c : Cascade) (query : Query) : Query :=
  { query with CascadeQuery := c }

/-- The closed set of fragment kinds recognized by the type switch inside
the top-level `Build` of `query.go`; `other` stands for any further
implementation of the open Go interface `Querier`, carrying an arbitrary
tag. -/
inductive Querier where
  | query (q : Query)
  | joinQuery (j : JoinQuery)
  | filterQuery (f : FilterQuery)
  | groupQuery (g : GroupQuery)
  | sortQuery (s : SortQuery)
  | offset (o : Offset)
  | limit (l : Limit)
  | lock (l : Lock)
  | unscoped (u : Unscoped)
  | reload (r : Reload)
  | sqlQuery (s : SQLQuery)
  | preload (p : Preload)
  | cascade (c : Cascade)
  | other (tag : String)

/-- One arm of the type switch inside the top-level `Build`: dispatches a
fragment to its own `Build`, and leaves the aggregate unchanged on a
fragment kind with no matching case. -/
def applyQuerier (query : Query) (qr : Querier) : Query :=
  match qr with
  | .query q => Query.Build q query
  | .joinQuery j => JoinQuery.Build j query
  | .filterQuery f => FilterQuery.Build f query
  | .groupQuery g => GroupQuery.Build g query
  | .sortQuery s => SortQuery.Build s query
  | .offset o => Offset.Build o query
  | .limit l => Limit.Build l query
  | .lock l => Lock.Build l query
  | .unscoped u => Unscoped.Build u query
  | .reload r => Reload.Build r query
  | .sqlQuery s => SQLQuery.Build s query
  | .preload p => Preload.Build p query
  | .cascade c => Cascade.Build c query
  | .other _ => query

/-- The initial aggregate of the top-level `Build`: `newQuery()`, with the
`empty` marker set exactly when the first fragment is itself a `Query`
(`_, query.empty = queriers[0].(Query)`; with no fragments the marker
keeps its zero value). -/
def buildInit (queriers : List Querier) : Query :=
  match queriers with
  | Querier.query _ :: _ => { newQuery with empty := true }
  | _ => newQuery

/-- `Build(table, queriers...)`: the top-level fold.  Dispatches each
fragment in order, then falls back to the caller-supplied table name if
the aggregate's table is still empty. -/
def Build (table : String) (queriers : List Querier) : Query :=
  let query := queriers.foldl applyQuerier (buildInit queriers)
  if query.Table = "" then { query with Table := table } else query

/-- Method `Query.Select`: filter fields to be selected from database. -/
def Query.Select (q : Query) (fields : List String) : Query :=
  { q with SelectQuery := NewSelect fields }

/-- Method `Query.From`: set the table to be used for query. -/
def Query.From (q : Query) (table : String) : Query :=
  { q with Table := table }

/-- Method `Query.Distinct`: sets select query to be distinct. -/
def Query.Distinct (q : Query) : Query :=
  { q with SelectQuery := { q.SelectQuery with OnlyDistinct := true } }

/-- Method `Query.JoinWith`: join current table with other table with
custom join mode (`NewJoinWith(...).Build(&q)`). -/
def Query.JoinWith (q : Query) (mode table fromCol toCol : String)
    (filter : List FilterQuery) : Query :=
  JoinQuery.Build (NewJoinWith mode table fromCol toCol filter) q

/-- Method `Query.JoinOn`: join current table with other table. -/
def Query.JoinOn (q : Query) (table fromCol toCol : String)
    (filter : List FilterQuery) : Query :=
  q.JoinWith "JOIN" table fromCol toCol filter

/-- Method `Query.Join`: join current table with other table. -/
def Query.Join (q : Query) (table : String) (filter : List FilterQuery) : Query :=
  q.JoinOn table "" "" filter

/-- Method `Query.Joinf`: create join query using a raw query. -/
def Query.Joinf (q : Query) (expr : String) (args : List String) : Query :=
  JoinQuery.Build (NewJoinFragment expr args) q

/-- Method `Query.Where`: ANDs the filters onto the where-clause. -/
def Query.Where (q : Query) (filters : List FilterQuery) : Query :=
  { q with WhereQuery := q.WhereQuery.And filters }

/-- Method `Query.Wheref`: create where query using a raw query. -/
def Query.Wheref (q : Query) (expr : String) (args : List String) : Query :=
  { q with WhereQuery := q.WhereQuery.And [FilterFragment expr args] }

/-- Method `Query.OrWhere`: ORs the whole accumulated where-clause
against the conjunction of the new filters
(`q.WhereQuery = q.WhereQuery.Or(And(filters...))`). -/
def Query.OrWhere (q : Query) (filters : List FilterQuery) : Query :=
  { q with WhereQuery := q.WhereQuery.Or [rel.And filters] }

/-- Method `Query.OrWheref`: ORs the whole accumulated where-clause
against a raw fragment. -/
def Query.OrWheref (q : Query) (expr : String) (args : List String) : Query :=
  { q with WhereQuery := q.WhereQuery.Or [FilterFragment expr args] }

/-- Method `Query.Group`: sets the group fields. -/
def Query.Group (q : Query) (fields : List String) : Query :=
  { q with GroupQuery := { q.GroupQuery with Fields := fields } }

/-- Method `Query.Having`: ANDs the filters onto the having-clause. -/
def Query.Having (q : Query) (filters : List FilterQuery) : Query :=
  { q with GroupQuery := { q.GroupQuery with Filter := q.GroupQuery.Filter.And filters } }

/-- Method `Query.Havingf`: create having query using a raw query. -/
def Query.Havingf (q : Query) (expr : String) (args : List String) : Query :=
  { q with GroupQuery := { q.GroupQuery with Filter := q.GroupQuery.Filter.And [FilterFragment expr args] } }

/-- Method `Query.OrHaving`: ORs the whole accumulated having-clause
against the conjunction of the new filters. -/
def Query.OrHaving (q : Query) (filters : List FilterQuery) : Query :=
  { q with GroupQuery := { q.GroupQuery with Filter := q.GroupQuery.Filter.Or [rel.And filters] } }

/-- Method `Query.OrHavingf`: ORs the whole accumulated having-clause
against a raw fragment. -/
def Query.OrHavingf (q : Query) (expr : String) (args : List String) : Query :=
  { q with GroupQuery := { q.GroupQuery with Filter := q.GroupQuery.Filter.Or [FilterFragment expr args] } }

/-- Method `Query.SortAsc`: appends one ascending sort per field. -/
def Query.SortAsc (q : Query) (fields : List String) : Query :=
  { q with SortQuery := q.SortQuery ++ fields.map NewSortAsc }

/-- Method `Query.SortDesc`: appends one descending sort per field. -/
def Query.SortDesc (q : Query) (fields : List String) : Query :=
  { q with SortQuery := q.SortQuery ++ fields.map NewSortDesc }

/-- Method `Query.Sort`: alias of `SortAsc`. -/
def Query.Sort (q : Query) (fields : List String) : Query :=
  q.SortAsc fields

/-- Method `Query.Offset`: offset the result returned by database. -/
def Query.Offset (q : Query) (offset : Int) : Query :=
  { q with OffsetQuery := offset }

/-- Method `Query.Limit`: limit result returned by database. -/
def Query.Limit (q : Query) (limit : Int) : Query :=
  { q with LimitQuery := limit }

/-- Method `Query.Lock`: lock query expression. -/
def Query.Lock (q : Query) (lock : String) : Query :=
  { q with LockQuery := lock }

/-- Method `Query.Unscoped`: allows soft-delete to be ignored. -/
def Query.Unscoped (q : Query) : Query :=
  { q with UnscopedQuery := true }

/-- Method `Query.Reload`: force reloading association on preload. -/
def Query.Reload (q : Query) : Query :=
  { q with ReloadQuery := true }

/-- Method `Query.Cascade`: enable/disable autoload association on Find
and FindAll query. -/
def Query.Cascade (q : Query) (c : Bool) : Query :=
  { q with CascadeQuery := c }

/-- Method `Query.Preload`: preload field association. -/
def Query.Preload (q : Query) (field : String) : Query :=
  { q with PreloadQuery := q.PreloadQuery ++ [field] }

/-- Method `Query.UsePrimary`: use primary database. -/
def Query.UsePrimary (q : Query) : Query :=
  { q with UsePrimaryDb := true }

/-- Free constructor `Select`: a query with select as starting point. -/
def Select (fields : List String) : Query :=
  { newQuery with SelectQuery := { newQuery.SelectQuery with Fields := fields } }

/-- Free constructor `From`: a query with from as starting point. -/
def From (table : String) : Query :=
  { newQuery with Table := table }

/-- Free constructor `JoinWith`: a query with a join as starting point. -/
def JoinWith (mode table fromCol toCol : String) (filter : List FilterQuery) : Query :=
  { newQuery with JoinQuery := [NewJoinWith mode table fromCol toCol filter] }

/-- Free constructor `JoinOn`: a query with a join as starting point. -/
def JoinOn (table fromCol toCol : String) (filter : List FilterQuery) : Query :=
  JoinWith "JOIN" table fromCol toCol filter

/-- Free constructor `Join`: a query with a join as starting point. -/
def Join (table : String) (filter : List FilterQuery) : Query :=
  JoinOn table "" "" filter

/-- Free constructor `Joinf`: a query with a raw join as starting point. -/
def Joinf (expr : String) (args : List String) : Query :=
  { newQuery with JoinQuery := [NewJoinFragment expr args] }

/-- Free constructor `Where`: a query with where as starting point. -/
def Where (filters : List FilterQuery) : Query :=
  { newQuery with WhereQuery := rel.And filters }

/-- Free constructor `UsePrimary`. -/
def UsePrimary : Query :=
  { newQuery with UsePrimaryDb := true }

/-- `ForUpdate()` lock query. -/
def ForUpdate : Lock := "FOR UPDATE"

/-- Clause emitted by `Query.String` for the use-primary flag. -/
def Query.usePrimaryClause (q : Query) : String :=
  if q.UsePrimaryDb then ".UsePrimary()" else ""

/-- Clause emitted by `Query.String` for the table. -/
def Query.fromClause (q : Query) : String :=
  if q.Table ≠ "" then ".From(\"" ++ q.Table ++ "\")" else ""

/-- Clause emitted by `Query.String` for the select fields. -/
def Query.selectClause (q : Query) : String :=
  if q.SelectQuery.Fields.length ≠ 0 then
    ".Select(\"" ++ String.intercalate "\", \"" q.SelectQuery.Fields ++ "\")"
  else ""

/-- Clause emitted by `Query.String` for the distinct flag. -/
def Query.distinctClause (q : Query) : String :=
  if q.SelectQuery.OnlyDistinct then ".Distinct()" else ""

/-- Text of one `JoinWith` clause inside `Query.String`. -/
def JoinQuery.clause (jq : JoinQuery) : String :=
  ".JoinWith(\"" ++ jq.Mode ++ "\", \"" ++ jq.Table ++ "\", \"" ++ jq.From
    ++ "\", \"" ++ jq.To ++ "\")"

/-- Clauses emitted by `Query.String` for the joins, in insertion order. -/
def Query.joinsClause (q : Query) : String :=
  String.join (q.JoinQuery.map JoinQuery.clause)

/-- Clause emitted by `Query.String` for the where filter tree. -/
def Query.whereClause (q : Query) : String :=
  if !q.WhereQuery.None then ".Where(" ++ q.WhereQuery.String ++ ")" else ""

/-- Clause emitted by `Query.String` for the group fields, with the
having clause nested inside it. -/
def Query.groupClause (q : Query) : String :=
  if q.GroupQuery.Fields.length ≠ 0 then
    ".Group(\"" ++ String.intercalate "\", \"" q.GroupQuery.Fields ++ "\")"
      ++ (if !q.GroupQuery.Filter.None then
            ".Having(" ++ q.GroupQuery.Filter.String ++ ")"
          else "")
  else ""

/-- Text of one `SortAsc`/`SortDesc` clause inside `Query.String`. -/
def SortQuery.clause (sq : SortQuery) : String :=
  (if sq.Asc then ".SortAsc(\"" else ".SortDesc(\"") ++ sq.Field ++ "\")"

/-- Clauses emitted by `Query.String` for the sorts, in insertion order. -/
def Query.sortsClause (q : Query) : String :=
  String.join (q.SortQuery.map SortQuery.clause)

/-- Clause emitted by `Query.String` for a strictly positive limit. -/
def Query.limitClause (q : Query) : String :=
  if q.LimitQuery > 0 then ".Limit(" ++ toString q.LimitQuery ++ ")" else ""

/-- Clause emitted by `Query.String` for a strictly positive offset. -/
def Query.offsetClause (q : Query) : String :=
  if q.OffsetQuery > 0 then ".Offset(" ++ toString q.OffsetQuery ++ ")" else ""

/-- Clause emitted by `Query.String` for the lock mode. -/
def Query.lockClause (q : Query) : String :=
  if q.LockQuery ≠ "" then ".Lock(\"" ++ q.LockQuery ++ "\")" else ""

/-- Clause emitted by `Query.String` for the unscoped flag. -/
def Query.unscopedClause (q : Query) : String :=
  if q.UnscopedQuery then ".Unscoped()" else ""

/-- Clause emitted by `Query.String` for the reload flag. -/
def Query.reloadClause (q : Query) : String :=
  if q.ReloadQuery then ".Reload()" else ""

/-- Clause emitted by `Query.String` for the cascade flag: emitted only
when cascade is false (true is the default and is omitted). -/
def Query.cascadeClause (q : Query) : String :=
  if !q.CascadeQuery then ".Cascade(false)" else ""

/-- Clause emitted by `Query.String` for the preload field names. -/
def Query.preloadClause (q : Query) : String :=
  if q.PreloadQuery.length ≠ 0 then
    ".Preload(\"" ++ String.intercalate "\", \"" q.PreloadQuery ++ "\")"
  else ""

/-- `Query.String()`: describe query as string.  A non-empty raw SQL
statement short-circuits to the raw query's own rendering; otherwise the
builder writes `"rel"` followed by each clause in the source's order, and
returns the empty string when nothing beyond the `"rel"` prefix was
written.  Each `builder.WriteString` block of the source is one of the
clause definitions above, concatenated here in the source's order. -/
def Query.String (q : Query) : String :=
  if q.SQLQuery.Statement ≠ "" then
    SQLQuery.String q.SQLQuery
  else
    let str := "rel" ++ q.usePrimaryClause ++ q.fromClause ++ q.selectClause
      ++ q.distinctClause ++ q.joinsClause ++ q.whereClause ++ q.groupClause
      ++ q.sortsClause ++ q.limitClause ++ q.offsetClause ++ q.lockClause
      ++ q.unscopedClause ++ q.reloadClause ++ q.cascadeClause ++ q.preloadClause
    if str ≠ "rel" then str else ""

/-- Transcribed from the spec's serialization section: the ordered list of
clauses a query's string must emit — `UsePrimary()` (if set), `From(table)`
(if table non-empty), `Select(fields...)` (if fields present), `Distinct()`
(if set), one `JoinWith(mode, table, from, to)` per join in insertion
order, `Where(...)` (omitted if identity), `Group(fields...)` with nested
`Having(...)` (if having non-identity), one `SortAsc(field)` or
`SortDesc(field)` per sort in insertion order, `Limit(n)` (if positive),
`Offset(n)` (if positive), `Lock(mode)` (if set), `Unscoped()` (if set),
`Reload()` (if set), `Cascade(false)` (only when cascade is false), then
`Preload(fields...)` (if any).  Per-clause argument text follows the
spec's grammar (dot-call with double-quoted string arguments). -/
def specClauseList (q : Query) : List String :=
  (if q.UsePrimaryDb then [".UsePrimary()"] else [])
  ++ (if q.Table ≠ "" then [".From(\"" ++ q.Table ++ "\")"] else [])
  ++ (if q.SelectQuery.Fields.length ≠ 0 then
        [".Select(\"" ++ String.intercalate "\", \"" q.SelectQuery.Fields ++ "\")"]
      else [])
  ++ (if q.SelectQuery.OnlyDistinct then [".Distinct()"] else [])
  ++ q.JoinQuery.map JoinQuery.clause
  ++ (if !q.WhereQuery.None then [".Where(" ++ q.WhereQuery.String ++ ")"] else [])
  ++ (if q.GroupQuery.Fields.length ≠ 0 then
        [".Group(\"" ++ String.intercalate "\", \"" q.GroupQuery.Fields ++ "\")"
          ++ (if !q.GroupQuery.Filter.None then
                ".Having(" ++ q.GroupQuery.Filter.String ++ ")"
              else "")]
      else [])
  ++ q.SortQuery.map SortQuery.clause
  ++ (if q.LimitQuery > 0 then [".Limit(" ++ toString q.LimitQuery ++ ")"] else [])
  ++ (if q.OffsetQuery > 0 then [".Offset(" ++ toString q.OffsetQuery ++ ")"] else [])
  ++ (if q.LockQuery ≠ "" then [".Lock(\"" ++ q.LockQuery ++ "\")"] else [])
  ++ (if q.UnscopedQuery then [".Unscoped()"] else [])
  ++ (if q.ReloadQuery then [".Reload()"] else [])
  ++ (if !q.CascadeQuery then [".Cascade(false)"] else [])
  ++ (if q.PreloadQuery.length ≠ 0 then
        [".Preload(\"" ++ String.intercalate "\", \"" q.PreloadQuery ++ "\")"]
      else [])

end rel

theorem strJoin_nil : String.join [] = "" := rfl

theorem strJoin_cons (a : String) (l : List String) :
    String.join (a :: l) = a ++ String.join l := by
  apply String.ext
  simp [String.data_join]

theorem strJoin_append (l₁ l₂ : List String) :
    String.join (l₁ ++ l₂) = String.join l₁ ++ String.join l₂ := by
  apply String.ext
  simp [String.data_join]

theorem strJoin_emit (P : Prop) [Decidable P] (c : String) :
    String.join (if P then [c] else []) = if P then c else "" := by
  by_cases h : P <;> simp [h, strJoin_cons, strJoin_nil]

theorem str_append_eq_self_iff (t s : String) : t ++ s = t ↔ s = "" := by
  constructor
  · intro h
    have h2 : t.data ++ s.data = t.data := by
      simpa [String.data_append] using congrArg String.data h
    have h3 : t.data.length + s.data.length = t.data.length := by
      simpa [List.length_append] using congrArg List.length h2
    have h4 : s.data.length = 0 := by omega
    exact String.ext (List.eq_nil_of_length_eq_zero h4)
  · intro h
    subst h
    exact String.append_empty t

theorem str_append_ne_empty_right (a b : String) (h : b ≠ "") : a ++ b ≠ "" := by
  intro hc
  have h2 : a.data ++ b.data = [] := by
    simpa [String.data_append] using congrArg String.data hc
  exact h (String.ext (List.append_eq_nil.mp h2).2)

theorem str_rel_prefix_if (B : String) :
    (if ("rel" ++ B) ≠ "rel" then "rel" ++ B else "")
      = (if B = "" then "" else "rel" ++ B) := by
  by_cases hB : B = ""
  · subst hB
    simp [String.append_empty]
  · have hne : "rel" ++ B ≠ "rel" := fun hc => hB ((str_append_eq_self_iff _ _).mp hc)
    simp [hB, hne]

theorem strJoin_specClauseList (q : rel.Query) :
    String.join (rel.specClauseList q)
      = rel.Query.usePrimaryClause q ++ rel.Query.fromClause q
        ++ rel.Query.selectClause q ++ rel.Query.distinctClause q
        ++ rel.Query.joinsClause q ++ rel.Query.whereClause q
        ++ rel.Query.groupClause q ++ rel.Query.sortsClause q
        ++ rel.Query.limitClause q ++ rel.Query.offsetClause q
        ++ rel.Query.lockClause q ++ rel.Query.unscopedClause q
        ++ rel.Query.reloadClause q ++ rel.Query.cascadeClause q
        ++ rel.Query.preloadClause q := by
  simp only [rel.specClauseList, strJoin_append, strJoin_emit,
    rel.Query.usePrimaryClause, rel.Query.fromClause, rel.Query.selectClause,
    rel.Query.distinctClause, rel.Query.joinsClause, rel.Query.whereClause,
    rel.Query.groupClause, rel.Query.sortsClause, rel.Query.limitClause,
    rel.Query.offsetClause, rel.Query.lockClause, rel.Query.unscopedClause,
    rel.Query.reloadClause, rel.Query.cascadeClause, rel.Query.preloadClause,
    String.append_assoc]

/-- C1: for all filter predicates `a`, `b`, `c`, the where-clause of
`Where(a).Where(b).OrWhere(c)` is `(a AND b) OR c` — `OrWhere` (and
`OrWheref`) OR the entire accumulated prior where-clause against the new
predicate, not just the most recent AND-term. -/
theorem orWhere_ors_entire_prior_where_clause
    (f₁ o₁ v₁ f₂ o₂ v₂ f₃ o₃ v₃ e : String) (args : List String) :
    (((rel.Where [rel.FilterQuery.pred f₁ o₁ v₁]).Where
        [rel.FilterQuery.pred f₂ o₂ v₂]).OrWhere
        [rel.FilterQuery.pred f₃ o₃ v₃]).WhereQuery
      = rel.FilterQuery.or
          [rel.FilterQuery.and
            [rel.FilterQuery.pred f₁ o₁ v₁, rel.FilterQuery.pred f₂ o₂ v₂],
           rel.FilterQuery.pred f₃ o₃ v₃]
  ∧ (((rel.Where [rel.FilterQuery.pred f₁ o₁ v₁]).Where
        [rel.FilterQuery.pred f₂ o₂ v₂]).OrWheref e args).WhereQuery
      = rel.FilterQuery.or
          [rel.FilterQuery.and
            [rel.FilterQuery.pred f₁ o₁ v₁, rel.FilterQuery.pred f₂ o₂ v₂],
           rel.FilterQuery.fragment e args] :=
  ⟨rfl, rfl⟩

/-- C2 counterexample: merging a fragment `Query` carrying a preload into
a non-fresh aggregate drops the fragment's preload list instead of
appending it, refuting the claim that the preload sequences are appended
on merge. -/
theorem merge_preload_not_appended_cex :
    ¬ ((rel.Query.Build { rel.newQuery with PreloadQuery := ["author"] }
          (rel.From "todos")).PreloadQuery
        = (rel.From "todos").PreloadQuery
          ++ (rel.newQuery.PreloadQuery ++ ["author"])) := by
  decide

/-- C2 (amended): when a `Query` fragment is merged into a non-fresh
aggregate, the join and sort sequences of the fragment are appended to the
aggregate's sequences in insertion order, but the fragment's preload list
is not merged — the aggregate's preload list is left unchanged. -/
theorem merge_appends_joins_sorts_not_preload (t q : rel.Query)
    (h : t.empty = false) :
    (rel.Query.Build q t).JoinQuery = t.JoinQuery ++ q.JoinQuery
  ∧ (rel.Query.Build q t).SortQuery = t.SortQuery ++ q.SortQuery
  ∧ (rel.Query.Build q t).PreloadQuery = t.PreloadQuery := by
  refine ⟨?_, ?_, ?_⟩ <;> simp [rel.Query.Build, h]

theorem merge_appends_joins_sorts_not_preload_witness :
    (rel.From "todos").empty = false
  ∧ ((rel.Query.Build { rel.newQuery with PreloadQuery := ["author"] }
        (rel.From "todos")).JoinQuery
      = (rel.From "todos").JoinQuery ++ rel.newQuery.JoinQuery
    ∧ (rel.Query.Build { rel.newQuery with PreloadQuery := ["author"] }
        (rel.From "todos")).SortQuery
      = (rel.From "todos").SortQuery ++ rel.newQuery.SortQuery
    ∧ (rel.Query.Build { rel.newQuery with PreloadQuery := ["author"] }
        (rel.From "todos")).PreloadQuery
      = (rel.From "todos").PreloadQuery) :=
  ⟨rfl, merge_appends_joins_sorts_not_preload _ _ rfl⟩

/-- C3 counterexample: `Build("todos")` with zero fragments has a
non-empty string — its `String()` renders the table clause
`rel.From("todos")`, refuting the claim that it equals the empty
string. -/
theorem empty_build_string_nonempty_cex :
    rel.Query.String (rel.Build "todos" []) ≠ "" := by
  decide

/-- C3 (amended): `Build("todos")` with zero fragments yields a `Query`
whose table is `"todos"`, whose cascade flag is true and whose remaining
fields are all at their defaults, and whose `String()` equals
`rel.From("todos")` (the rendering of just the table clause), not the
empty string. -/
theorem empty_build_table_cascade_default_string :
    rel.Build "todos" [] = { Table := "todos", CascadeQuery := true }
  ∧ rel.Query.String (rel.Build "todos" []) = "rel.From(\"todos\")" :=
  ⟨rfl, by decide⟩

/-- C4: when the first fragment of the top-level fold is itself a full
`Query`, the fold marks the fresh aggregate as empty, folding that first
fragment replaces the aggregate wholesale (every field overwritten with
the fragment's), and the whole fold therefore continues from the fragment
itself. -/
theorem fresh_aggregate_full_overwrite (table : String) (q : rel.Query)
    (rest : List rel.Querier) :
    (rel.buildInit (rel.Querier.query q :: rest)).empty = true
  ∧ rel.applyQuerier (rel.buildInit (rel.Querier.query q :: rest))
      (rel.Querier.query q) = q
  ∧ rel.Build table (rel.Querier.query q :: rest)
      = (if (rest.foldl rel.applyQuerier q).Table = ""
         then { rest.foldl rel.applyQuerier q with Table := table }
         else rest.foldl rel.applyQuerier q) := by
  refine ⟨rfl, rfl, ?_⟩
  simp [rel.Build, rel.buildInit, rel.applyQuerier, rel.Query.Build, rel.newQuery]

/-- C5: `Query.String` emits exactly the clauses of the spec's clause
list, in the spec's order (UsePrimary, From, Select, Distinct, joins in
insertion order, Where, Group with nested Having, sorts in insertion
order, Limit if positive, Offset if positive, Lock, Unscoped, Reload,
Cascade(false) only when cascade is false, Preload), and when no clause
is emitted the result is the empty string rather than the bare `rel`
prefix token. -/
theorem string_clause_order_follows_spec (q : rel.Query)
    (h : q.SQLQuery.Statement = "") :
    rel.Query.String q
      = (if String.join (rel.specClauseList q) = "" then ""
         else "rel" ++ String.join (rel.specClauseList q)) := by
  unfold rel.Query.String
  rw [if_neg (by simp [h])]
  dsimp only
  rw [strJoin_specClauseList]
  simp only [String.append_assoc]
  exact str_rel_prefix_if _

theorem string_clause_order_follows_spec_witness :
    (rel.From "todos").SQLQuery.Statement = ""
  ∧ rel.Query.String (rel.From "todos")
      = (if String.join (rel.specClauseList (rel.From "todos")) = "" then ""
         else "rel" ++ String.join (rel.specClauseList (rel.From "todos"))) :=
  ⟨rfl, string_clause_order_follows_spec _ rfl⟩

/-- C6: when a `Query` fragment is merged into a non-fresh aggregate, the
fragment's select spec and group spec replace the aggregate's wholesale
when the fragment's field list is non-empty, and leave the aggregate's
untouched otherwise — never a union or append. -/
theorem merge_replaces_select_and_group (t q : rel.Query)
    (h : t.empty = false) :
    (rel.Query.Build q t).SelectQuery
      = (if q.SelectQuery.Fields = [] then t.SelectQuery else q.SelectQuery)
  ∧ (rel.Query.Build q t).GroupQuery
      = (if q.GroupQuery.Fields = [] then t.GroupQuery else q.GroupQuery) := by
  refine ⟨?_, ?_⟩ <;> simp [rel.Query.Build, h, ite_not]

theorem merge_replaces_select_and_group_witness :
    (rel.Select ["y"]).empty = false
  ∧ ((rel.Query.Build (rel.Select ["x"]) (rel.Select ["y"])).SelectQuery
      = (if (rel.Select ["x"]).SelectQuery.Fields = []
         then (rel.Select ["y"]).SelectQuery
         else (rel.Select ["x"]).SelectQuery)
    ∧ (rel.Query.Build (rel.Select ["x"]) (rel.Select ["y"])).GroupQuery
      = (if (rel.Select ["x"]).GroupQuery.Fields = []
         then (rel.Select ["y"]).GroupQuery
         else (rel.Select ["x"]).GroupQuery)) :=
  ⟨rfl, merge_replaces_select_and_group _ _ rfl⟩

/-- C7: every freshly constructed `Query` — from `Build` with no
fragments, `From`, `Select`, `Where`, the `Join` family, or `UsePrimary`
— has cascade true; while cascade is true the string's cascade clause is
empty (no `Cascade` call is rendered); and after `.Cascade(false)` the
string contains `.Cascade(false)`. -/
theorem cascade_defaults_true_and_string :
    (∀ t, (rel.Build t []).CascadeQuery = true)
  ∧ (∀ t, (rel.From t).CascadeQuery = true)
  ∧ (∀ fs, (rel.Select fs).CascadeQuery = true)
  ∧ (∀ fl, (rel.Where fl).CascadeQuery = true)
  ∧ (∀ tb fl, (rel.Join tb fl).CascadeQuery = true)
  ∧ (∀ tb fc tc fl, (rel.JoinOn tb fc tc fl).CascadeQuery = true)
  ∧ (∀ m tb fc tc fl, (rel.JoinWith m tb fc tc fl).CascadeQuery = true)
  ∧ (∀ e ar, (rel.Joinf e ar).CascadeQuery = true)
  ∧ rel.UsePrimary.CascadeQuery = true
  ∧ (∀ q : rel.Query, q.CascadeQuery = true → rel.Query.cascadeClause q = "")
  ∧ (∀ q : rel.Query, q.SQLQuery.Statement = "" →
      ∃ pre post,
        rel.Query.String (rel.Query.Cascade q false)
          = pre ++ ".Cascade(false)" ++ post) := by
  refine ⟨fun _ => rfl, fun _ => rfl, fun _ => rfl, fun _ => rfl,
    fun _ _ => rfl, fun _ _ _ _ => rfl, fun _ _ _ _ _ => rfl, fun _ _ => rfl,
    rfl, fun q h => by simp [rel.Query.cascadeClause, h], fun q h => ?_⟩
  have hcc : rel.Query.cascadeClause (rel.Query.Cascade q false)
      = ".Cascade(false)" := by
    simp [rel.Query.cascadeClause, rel.Query.Cascade]
  refine ⟨"rel" ++ rel.Query.usePrimaryClause (rel.Query.Cascade q false)
      ++ rel.Query.fromClause (rel.Query.Cascade q false)
      ++ rel.Query.selectClause (rel.Query.Cascade q false)
      ++ rel.Query.distinctClause (rel.Query.Cascade q false)
      ++ rel.Query.joinsClause (rel.Query.Cascade q false)
      ++ rel.Query.whereClause (rel.Query.Cascade q false)
      ++ rel.Query.groupClause (rel.Query.Cascade q false)
      ++ rel.Query.sortsClause (rel.Query.Cascade q false)
      ++ rel.Query.limitClause (rel.Query.Cascade q false)
      ++ rel.Query.offsetClause (rel.Query.Cascade q false)
      ++ rel.Query.lockClause (rel.Query.Cascade q false)
      ++ rel.Query.unscopedClause (rel.Query.Cascade q false)
      ++ rel.Query.reloadClause (rel.Query.Cascade q false),
    rel.Query.preloadClause (rel.Query.Cascade q false), ?_⟩
  unfold rel.Query.String
  rw [if_neg (by simp [rel.Query.Cascade, h])]
  dsimp only
  rw [if_pos]
  · rw [hcc]
  · rw [hcc]
    intro hc
    have h2 := congrArg String.length hc
    simp only [String.length_append] at h2
    have h3 : (".Cascade(false)" : String).length = 15 := rfl
    omega

theorem cascade_defaults_true_and_string_witness :
    (rel.From "todos").CascadeQuery = true
  ∧ rel.Query.cascadeClause (rel.From "todos") = ""
  ∧ (rel.From "todos").SQLQuery.Statement = ""
  ∧ ∃ pre post,
      rel.Query.String (rel.Query.Cascade (rel.From "todos") false)
        = pre ++ ".Cascade(false)" ++ post :=
  ⟨cascade_defaults_true_and_string.2.1 "todos",
   cascade_defaults_true_and_string.2.2.2.2.2.2.2.2.2.1 _ rfl,
   rfl,
   cascade_defaults_true_and_string.2.2.2.2.2.2.2.2.2.2 _ rfl⟩

/-- C8: the top-level fold is a total function — it is defined for every
fragment list and returns a `Query` with no error path; a fragment kind
outside the recognized set leaves the aggregate unchanged, and appending
such a fragment to any fold input leaves the fold's result unchanged. -/
theorem fold_total_skips_unrecognized :
    (∀ (a : rel.Query) (tag : String),
      rel.applyQuerier a (rel.Querier.other tag) = a)
  ∧ (∀ (table : String) (qrs : List rel.Querier) (tag : String),
      rel.Build table (qrs ++ [rel.Querier.other tag]) = rel.Build table qrs) := by
  refine ⟨fun _ _ => rfl, fun table qrs tag => ?_⟩
  have hinit : rel.buildInit (qrs ++ [rel.Querier.other tag])
      = rel.buildInit qrs := by
    cases qrs with
    | nil => rfl
    | cons x xs => cases x <;> rfl
  simp [rel.Build, hinit, List.foldl_append, rel.applyQuerier]

/-- C9 (implicit frame effect): merging a `Query` fragment into a
non-fresh aggregate never modifies the aggregate's unscoped flag — a
fragment `Query` with `Unscoped = true` loses that flag in the
field-by-field merge; only folding a bare `Unscoped` fragment value sets
it on the aggregate. -/
theorem merge_preserves_unscoped_flag (t q : rel.Query)
    (h : t.empty = false) :
    (rel.Query.Build q t).UnscopedQuery = t.UnscopedQuery
  ∧ (∀ (a : rel.Query) (u : Bool),
      rel.Unscoped.Build u a = { a with UnscopedQuery := u }) := by
  exact ⟨by simp [rel.Query.Build, h], fun _ _ => rfl⟩

theorem merge_preserves_unscoped_flag_witness :
    (rel.From "todos").empty = false
  ∧ ((rel.Query.Build { rel.newQuery with UnscopedQuery := true }
        (rel.From "todos")).UnscopedQuery = (rel.From "todos").UnscopedQuery
    ∧ (∀ (a : rel.Query) (u : Bool),
        rel.Unscoped.Build u a = { a with UnscopedQuery := u })) :=
  ⟨rfl, merge_preserves_unscoped_flag _ _ rfl⟩

/-- C10 (implicit): whenever the raw SQL statement of a query is
non-empty, `Query.String` returns the raw SQL query's own rendering and
none of the builder-call clauses, whatever the other fields hold. -/
theorem raw_sql_short_circuits_string (q : rel.Query)
    (h : q.SQLQuery.Statement ≠ "") :
    rel.Query.String q = rel.SQLQuery.String q.SQLQuery := by
  unfold rel.Query.String
  rw [if_pos h]

theorem raw_sql_short_circuits_string_witness :
    ({ rel.newQuery with
        SQLQuery := { Statement := "SELECT 1" } } : rel.Query).SQLQuery.Statement ≠ ""
  ∧ rel.Query.String { rel.newQuery with SQLQuery := { Statement := "SELECT 1" } }
      = rel.SQLQuery.String
          ({ rel.newQuery with
              SQLQuery := { Statement := "SELECT 1" } } : rel.Query).SQLQuery :=
  ⟨by decide, raw_sql_short_circuits_string _ (by decide)⟩
